import Mathlib

/-!
Verification of the fastroutes code-synthesis engine.

This file gives a shallow embedding of the engine found in
`src/fastroutes/route.py`, `src/fastroutes/client.py` and
`src/fastroutes/helpers.py`, and settles the frozen claims about it.

Python strings are modelled as Lean `String`s.  Because the kernel cannot
reduce the built-in `String.splitOn`, `String.replace` etc., the Python
string primitives used by the engine (`str.replace`, `str.splitlines`,
`str.split`, `str.lstrip`, `str.startswith`, `str.endswith`,
`str.capitalize`, `textwrap.indent`, `",".join`) are re-implemented over
`List Char` with structural or fueled recursion, matching CPython's
semantics at the call sites the engine uses (non-empty patterns,
`\n`-separated text).

Python class objects (pydantic models) are nominal: the environment
`List ModelInfo` maps a numeric identity to the class's `__name__`,
`__module__`, `__base__`, `model_fields` and `inspect.getsource` text.
Code that can raise in Python (`IndexError` on `[0]`, `ValueError`,
attribute errors, unbounded recursion) returns `Except PyErr`; recursion
over the nominal class graph is fueled.
-/

set_option maxRecDepth 100000

namespace Fastroutes

/-! ### Python string primitives -/

/-- Whitespace characters stripped by `str.lstrip` / tested by `str.strip`
(the ASCII subset, which is all the engine's inputs contain). -/
def isPyWs (c : Char) : Bool :=
  c == ' ' || c == '\t' || c == '\n' || c == '\r'

/-- `str.lstrip()`. -/
def pyLstrip (s : String) : String := ⟨s.data.dropWhile isPyWs⟩

/-- `str.startswith(pre)`. -/
def pyStartsWith (s pre : String) : Bool := pre.data.isPrefixOf s.data

/-- `str.endswith(suf)`. -/
def pyEndsWith (s suf : String) : Bool := suf.data.reverse.isPrefixOf s.data.reverse

/-- `sep.join(xs)`. -/
def pyJoin (sep : String) (xs : List String) : String :=
  ⟨List.intercalate sep.data (xs.map String.data)⟩

/-- Left-to-right, non-overlapping replacement, i.e. `s.replace(pat, rep)`.
The fuel argument bounds the scan; it is always called with the full length
of the subject string, which suffices because every step consumes at least
one character (the engine never calls `replace` with an empty pattern). -/
def replaceAux (pat rep : List Char) : Nat → List Char → List Char
  | 0, s => s
  | _ + 1, [] => []
  | f + 1, c :: cs =>
    if pat ≠ [] ∧ pat.isPrefixOf (c :: cs) then
      rep ++ replaceAux pat rep f ((c :: cs).drop pat.length)
    else
      c :: replaceAux pat rep f cs

/-- `s.replace(pat, rep)`. -/
def pyReplace (s pat rep : String) : String :=
  ⟨replaceAux pat.data rep.data s.data.length s.data⟩

/-- `s.split(sep)` for a non-empty separator: every occurrence of `sep`
separates two fields, empty fields included. -/
def splitOnAux (sep : List Char) : Nat → List Char → List Char → List (List Char)
  | 0, s, acc => [acc.reverse ++ s]
  | _ + 1, [], acc => [acc.reverse]
  | f + 1, c :: cs, acc =>
    if sep ≠ [] ∧ sep.isPrefixOf (c :: cs) then
      acc.reverse :: splitOnAux sep f ((c :: cs).drop sep.length) []
    else
      splitOnAux sep f cs (c :: acc)

/-- `s.split(sep)`. -/
def pySplitOn (s sep : String) : List String :=
  (splitOnAux sep.data (s.data.length + 1) s.data []).map String.mk

/-- `sub in s` for a non-empty `sub`. -/
def pyContains (s sub : String) : Bool := (pySplitOn s sub).length != 1

/-- Split at every newline, keeping a final empty field when the text ends
with a newline (the shape `textwrap.indent` works on). -/
def splitNlKeepAux : List Char → List Char → List (List Char)
  | [], acc => [acc.reverse]
  | '\n' :: cs, acc => acc.reverse :: splitNlKeepAux cs []
  | c :: cs, acc => splitNlKeepAux cs (c :: acc)

/-- Newline split keeping the trailing empty field. -/
def pySplitOnNl (s : String) : List String :=
  (splitNlKeepAux s.data []).map String.mk

/-- `str.splitlines()` for `\n`-separated text: like the newline split but
without a trailing empty field when the text ends in a newline. -/
def pySplitlines (s : String) : List String :=
  let ls := pySplitOnNl s
  match ls.getLast? with
  | some "" => ls.dropLast
  | _ => ls

/-- `textwrap.indent(s, pre)`: prefix every line that does not consist
solely of whitespace. -/
def pyIndent (pre : String) (s : String) : String :=
  pyJoin "\n" ((pySplitOnNl s).map (fun l => if l.data.all isPyWs then l else pre ++ l))

/-- `str.capitalize()`: first character upper-cased, the rest lower-cased. -/
def pyCapitalize (s : String) : String :=
  match s.data with
  | [] => ""
  | c :: cs => ⟨c.toUpper :: cs.map Char.toLower⟩

/-! ### Python values and type annotations -/

/-- Runtime Python values that appear as parameter defaults.  Pydantic's
`PydanticUndefined` sentinel object gets its own constructor; the engine's
own `PARAMETER_UNDEFINED` sentinel is the plain string
`"_PARAMETER_UNDEFINED"` (route.py line 14), exactly as in the source. -/
inductive PyVal where
  | vstr (s : String)
  | vint (n : Int)
  | vbool (b : Bool)
  | vnone
  | pydanticUndefined
deriving DecidableEq, Repr

/-- `PARAMETER_UNDEFINED` (route.py line 14): a plain string sentinel. -/
def PARAMETER_UNDEFINED : PyVal := .vstr "_PARAMETER_UNDEFINED"

/-- `repr(v)` for the default values the engine renders. -/
def pyRepr : PyVal → String
  | .vstr s => "'" ++ s ++ "'"
  | .vint n => toString n
  | .vbool true => "True"
  | .vbool false => "False"
  | .vnone => "None"
  | .pydanticUndefined => "PydanticUndefined"

/-- A Python type annotation as the engine inspects it with
`get_origin` / `get_args` / `isinstance(-, ModelMetaclass)`:
a pydantic model class (nominal, by identity), a plain scalar type
(`int`, `str`, `datetime`, ...), `list[T]` (one type argument, as the
subscript syntax enforces), `dict[K, V]` (two), a binary union
(`T | U`; the union shapes the routes use), `Literal[...]` of string
values, or `NoneType`. -/
inductive PyAnn where
  | cls (mid : Nat)
  | scalar (n : String)
  | listOf (elem : PyAnn)
  | dictOf (key val : PyAnn)
  | unionOf (left right : PyAnn)
  | literalOf (vals : List String)
  | noneA
deriving DecidableEq, Repr

/-- One entry of a pydantic model's `model_fields`: field name, annotation,
`is_required()` and `default` (possibly `PydanticUndefined`). -/
structure FieldSpec where
  fname : String
  ftype : PyAnn
  required : Bool
  fdefault : PyVal
deriving DecidableEq, Repr

/-- Introspectable data of one pydantic model class: identity, `__name__`,
`__module__`, `__base__` (`none` means the base is `pydantic.BaseModel`
itself), `model_fields`, and `inspect.getsource` text. -/
structure ModelInfo where
  mid : Nat
  pyName : String
  module : String
  baseId : Option Nat
  fields : List FieldSpec
  source : String
deriving DecidableEq, Repr

/-- Errors raised by the Python code paths we embed, plus fuel exhaustion
standing for Python's unbounded recursion. -/
inductive PyErr where
  | indexError
  | attributeError
  | missingClass
  | fuelExhausted
  | valueError (msg : String)
deriving DecidableEq, Repr

/-- Look a class up by identity. -/
def findModel (env : List ModelInfo) (mid : Nat) : Option ModelInfo :=
  env.find? (fun m => m.mid == mid)

/-- Look a class up by identity, failing like an attribute access on a
dangling reference would. -/
def findModelE (env : List ModelInfo) (mid : Nat) : Except PyErr ModelInfo :=
  match findModel env mid with
  | some i => .ok i
  | none => .error .missingClass

/-! ### helpers.py -/

/-- `get_model_name` (helpers.py lines 5-9): capitalize each dot-separated
segment of `__module__`, concatenate, append `__name__`. -/
def get_model_name (module pyName : String) : String :=
  pyJoin "" ((pySplitOn module ".").map pyCapitalize) ++ pyName

/-- The resolved name of `pydantic.BaseModel` itself
(`get_model_name(BaseModel)`, module `pydantic.main`). -/
def baseModelResolvedName : String := get_model_name "pydantic.main" "BaseModel"

/-- Resolved name of a class's `__base__` (`pydantic.BaseModel` when the
class derives from the marker directly). -/
def base_resolved_name (env : List ModelInfo) (info : ModelInfo) : Except PyErr String :=
  match info.baseId with
  | none => .ok baseModelResolvedName
  | some b => do
    let bi ← findModelE env b
    .ok (get_model_name bi.module bi.pyName)

/-! ### route.py: Parameter -/

/-- `Parameter` (route.py lines 18-36): frozen dataclass with alias, type,
required flag and default (the string sentinel `PARAMETER_UNDEFINED` when
absent). -/
structure Parameter where
  «alias» : String
  type : PyAnn
  required : Bool
  default : PyVal := PARAMETER_UNDEFINED
deriving DecidableEq, Repr

/-- `Parameter.__eq__` (route.py lines 28-36): componentwise comparison of
the 4-tuple `(alias, type, required, default)`. -/
def parameterEq (p q : Parameter) : Bool :=
  decide (p.«alias» = q.«alias» ∧ p.type = q.type ∧ p.required = q.required ∧ p.default = q.default)

/-- `Parameter.__hash__` (route.py lines 25-26) hashes the tuple
`(alias, type, required)`; we model the hash by that key tuple itself, so
the hash is by construction a function of exactly these three components. -/
def parameterHashKey (p : Parameter) : String × PyAnn × Bool :=
  (p.«alias», p.type, p.required)

/-- `type.__name__` as the engine reads it: defined for plain types, model
classes and `NoneType`; generic aliases have no `__name__` and raise. -/
def pyNameE (env : List ModelInfo) : PyAnn → Except PyErr String
  | .scalar n => .ok n
  | .cls mid => do
    let i ← findModelE env mid
    .ok i.pyName
  | .noneA => .ok "NoneType"
  | _ => .error .attributeError

/-- `str(type_)` for generic aliases, built compositionally the way CPython
prints them (`datetime` prints as `datetime.datetime`, models by their
qualified module path). -/
def pyStrAnn (env : List ModelInfo) : PyAnn → Except PyErr String
  | .scalar n => .ok (if n == "datetime" then "datetime.datetime" else n)
  | .cls mid => do
    let i ← findModelE env mid
    .ok (i.module ++ "." ++ i.pyName)
  | .listOf e => do
    let s ← pyStrAnn env e
    .ok ("list[" ++ s ++ "]")
  | .dictOf k v => do
    let ks ← pyStrAnn env k
    let vs ← pyStrAnn env v
    .ok ("dict[" ++ ks ++ ", " ++ vs ++ "]")
  | .unionOf a b => do
    let as_ ← pyStrAnn env a
    let bs ← pyStrAnn env b
    .ok (as_ ++ " | " ++ bs)
  | .literalOf vals =>
    .ok ("typing.Literal[" ++ pyJoin ", " (vals.map (fun v => "'" ++ v ++ "'")) ++ "]")
  | .noneA => .ok "NoneType"

/-- `Parameter.__str__` (route.py lines 38-60): render `alias: type` or
`alias: type = default!r`.  A bare type uses `__name__`, a union joins the
member names with `" | "` (printing `NoneType` as `None`), a `list[Model]`
uses the resolved model name, and other generics fall back to `str(type_)`
with the `datetime.datetime` spelling collapsed.  (`list[...]` always has
exactly one subscript argument, so the `ValueError` branch of line 55 is
unreachable for representable annotations.) -/
def param_str (env : List ModelInfo) (p : Parameter) : Except PyErr String := do
  let type_repr ←
    match p.type with
    | .unionOf a b => do
        let na ← pyNameE env a
        let nb ← pyNameE env b
        pure (pyReplace (pyJoin " | " [na, nb]) "NoneType" "None")
    | .listOf e =>
        match e with
        | .cls mid => do
            let i ← findModelE env mid
            pure ("list[" ++ get_model_name i.module i.pyName ++ "]")
        | _ => do
            let s ← pyStrAnn env (.listOf e)
            pure (pyReplace s "datetime.datetime" "datetime")
    | .dictOf k v => do
        let s ← pyStrAnn env (.dictOf k v)
        pure (pyReplace s "datetime.datetime" "datetime")
    | .literalOf vals => do
        let s ← pyStrAnn env (.literalOf vals)
        pure (pyReplace s "datetime.datetime" "datetime")
    | t => pyNameE env t
  if p.default != PARAMETER_UNDEFINED then
    .ok (p.«alias» ++ ": " ++ type_repr ++ " = " ++ pyRepr p.default)
  else
    .ok (p.«alias» ++ ": " ++ type_repr)

/-! ### route.py: Route -/

/-- `Route` (route.py lines 63-73).  `body` holds the request-body field's
declared type (`None` when there is no body); `response` the declared
response model (`None` when absent). -/
structure Route where
  index : Nat
  name : String
  method : String
  path : String
  description : String
  body : Option PyAnn
  path_parameters : List Parameter
  query_parameters : List Parameter
  response : Option PyAnn
deriving DecidableEq, Repr

/-- An element of the heterogeneous `return_types` list: a type annotation,
a `Parameter` dataclass instance, or Python `None`.  `get_origin` of a
`Parameter` instance or of `None` is `None` and neither is a
`ModelMetaclass`, which is all the discovery code asks of them. -/
inductive PyObj where
  | ann (t : PyAnn)
  | param (p : Parameter)
  | noneObj
deriving DecidableEq, Repr

/-- Lift an optional annotation into the heterogeneous object view. -/
def obj_of : Option PyAnn → PyObj
  | none => .noneObj
  | some t => .ann t

/-- `Route.return_types` (route.py lines 75-79):
`[body] + path_parameters + query_parameters + [response]`, a heterogeneous
list mixing types, `Parameter` instances and `None`. -/
def return_types (r : Route) : List PyObj :=
  [obj_of r.body] ++ r.path_parameters.map PyObj.param
    ++ r.query_parameters.map PyObj.param ++ [obj_of r.response]

/-- `Route.body_parameters` (route.py lines 81-95): one `Parameter` per
field of the body model, substituting `PARAMETER_UNDEFINED` when the field
default is `PydanticUndefined`.  (Python returns `[]` when `body` is
falsy, and would fail on `model_fields` for a non-model body; extraction
only ever stores model classes there.) -/
def body_parameters (env : List ModelInfo) (r : Route) : List Parameter :=
  match r.body with
  | some (.cls mid) =>
    match findModel env mid with
    | some info => info.fields.map (fun f =>
        ⟨f.fname, f.ftype, f.required,
         if f.fdefault ≠ PyVal.pydanticUndefined then f.fdefault else PARAMETER_UNDEFINED⟩)
    | none => []
  | _ => []

/-- `Route.response_signature` (route.py lines 97-123): the textual return
annotation, decided by the top-level shape of `response`. -/
def response_signature (env : List ModelInfo) (resp : Option PyAnn) : Except PyErr String :=
  match resp with
  | some (.listOf e) =>
    match e with
    | .cls mid => do
        let i ← findModelE env mid
        .ok ("list[" ++ get_model_name i.module i.pyName ++ "]")
    | .literalOf vals =>
        .ok ("list[Literal[" ++ pyJoin ", " (vals.map (fun a => "'" ++ a ++ "'")) ++ "]]")
    | _ => do
        let n ← pyNameE env e
        .ok ("list[" ++ n ++ "]")
  | some (.dictOf k v) =>
    match v with
    | .cls mid => do
        let i ← findModelE env mid
        let kn ← pyNameE env k
        .ok ("dict[" ++ kn ++ ", " ++ get_model_name i.module i.pyName ++ "]")
    | _ => do
        let kn ← pyNameE env k
        let vn ← pyNameE env v
        .ok ("dict[" ++ kn ++ ", " ++ vn ++ "]")
  | none => .ok "None"
  | some t =>
    match t with
    | .cls mid => do
        let i ← findModelE env mid
        .ok (get_model_name i.module i.pyName)
    | _ => pyNameE env t

/-- Order on boolean sort keys: `false` sorts before `true`. -/
def boolLe (a b : Bool) : Bool := !a || b

/-- Stable insertion used to model Python's `sorted`: the new element goes
after every already-placed element whose key is less than or equal to its
own. -/
def insertStable (key : Parameter → Bool) (x : Parameter) : List Parameter → List Parameter
  | [] => [x]
  | y :: ys => if boolLe (key y) (key x) then y :: insertStable key x ys else x :: y :: ys

/-- Python's `sorted(l, key=key)` for a boolean-valued key: a stable sort
placing key-`false` elements before key-`true` elements. -/
def pySorted (key : Parameter → Bool) (l : List Parameter) : List Parameter :=
  l.foldl (fun acc x => insertStable key x acc) []

/-- The parameter list of the emitted signature (route.py lines 127-133):
`sorted(body_parameters + path_parameters + query_parameters,
key=lambda p: not p.required)`. -/
def handler_sorted_params (env : List ModelInfo) (r : Route) : List Parameter :=
  pySorted (fun p => !p.required) (body_parameters env r ++ r.path_parameters ++ r.query_parameters)

/-- The `response_model` local of `Route.handler` (route.py lines 164-171):
strip `list[`/`dict[` and the closing bracket; for a mapping take the
second `", "`-separated piece (an `IndexError` when there is none). -/
def response_model_of (rsig : String) : Except PyErr String :=
  if pyStartsWith rsig "list[" then
    .ok (⟨((rsig.data.drop 5).take ((rsig.data.drop 5).length - 1))⟩ : String)
  else if pyStartsWith rsig "dict[" then
    match pySplitOn (⟨((rsig.data.drop 5).take ((rsig.data.drop 5).length - 1))⟩ : String) ", " with
    | _ :: snd :: _ => .ok snd
    | _ => .error .indexError
  else
    .ok rsig

/-- The `asterisk` local of `Route.handler` (route.py lines 181-183):
`"**"` unless the signature is `list[int]` or ends in `", list]"`, forced
to `""` for a mapping signature ending in `int]`. -/
def asterisk_of (rsig : String) : String :=
  let a := if rsig != "list[int]" && !pyEndsWith rsig ", list]" then "**" else ""
  if pyStartsWith rsig "dict[" && pyEndsWith rsig "int]" then "" else a

/-- The `parse_body` local of `Route.handler` (route.py lines 184-205):
the emitted parse-and-return statement. -/
def parse_body_of (resp : Option PyAnn) (rsig rm ast : String) : String :=
  match resp with
  | none => pyIndent "    " "return None"
  | some _ =>
    if pyStartsWith rsig "list[" then
      if pyContains rsig "Literal" then
        pyIndent "    " "return [resp_object for resp_object in response_body]\n"
      else
        pyIndent "    " ("return [" ++ rm ++ "(" ++ ast ++ "resp_object) for resp_object in response_body]\n")
    else if pyStartsWith rsig "dict[" then
      pyIndent "    " ("return \x7bkey: " ++ rm ++ "(" ++ ast ++ "value) for key, value in response_body.items()\x7d")
    else
      pyIndent "    " ("return " ++ rm ++ "(" ++ ast ++ "response_body)")

/-- `Route.handler` (route.py lines 125-224): the full emitted method text
for one route. -/
def handler (env : List ModelInfo) (r : Route) : Except PyErr String := do
  let param_strs ← (handler_sorted_params env r).mapM (param_str env)
  let params := pyJoin ", " param_strs
  let rsig ← response_signature env r.response
  let signature := "async def " ++ r.name ++ "(self, " ++ params ++ ") -> " ++ rsig ++ ":\n"
  let docstring := pyIndent "    " ("\"\"\"" ++ r.description ++ "\"\"\"")
  let url_body := pyIndent "    "
    ("url = " ++ (if !r.path_parameters.isEmpty then "f" else "") ++ "'" ++ r.path ++ "'")
  let params_dict := pyJoin ", "
    (r.query_parameters.map (fun q => "\"" ++ q.«alias» ++ "\":" ++ q.«alias»))
  let params_body :=
    if !r.query_parameters.isEmpty then pyIndent "    " ("params = \x7b" ++ params_dict ++ "\x7d")
    else pyIndent "    " "params = None"
  let bps := body_parameters env r
  let payload_dict := pyJoin ", "
    (bps.map (fun b => "\"" ++ b.«alias» ++ "\":" ++ b.«alias»
      ++ (if b.type == PyAnn.scalar "datetime" then ".isoformat()" else "")))
  let payload_body :=
    if !bps.isEmpty then pyIndent "    " ("payload = \x7b" ++ payload_dict ++ "\x7d")
    else pyIndent "    " "payload = None"
  let httpx_body := pyIndent "    "
    ("api_response = await self._client.request(\"" ++ r.method ++ "\", url, json=payload, params=params)")
  let raise_error_body := pyIndent "    " "api_response.raise_for_status()"
  let rm ← response_model_of rsig
  let ast := asterisk_of rsig
  let response_json_body :=
    match r.response with
    | some _ => pyIndent "    " "response_body = api_response.json()"
    | none => pyIndent "    " ""
  let parse_body := parse_body_of r.response rsig rm ast
  .ok (signature ++ docstring ++ "\n" ++ url_body ++ "\n" ++ params_body ++ "\n"
    ++ payload_body ++ "\n" ++ httpx_body ++ "\n" ++ raise_error_body ++ "\n"
    ++ response_json_body ++ "\n" ++ parse_body)

/-! ### route.py: extraction -/

/-- `method_priority` (route.py lines 228-236). -/
def method_priority : List String :=
  ["GET", "POST", "DELETE", "PUT", "PATCH", "HEAD", "OPTIONS"]

/-- `Route.get_method` (route.py lines 226-242): first method of the
priority list present in the entry's method set; `ValueError` when none
of the seven is present. -/
def get_method (methods : List String) : Except PyErr String :=
  match method_priority.find? (fun m => methods.contains m) with
  | some m => .ok m
  | none => .error (.valueError "Method not found")

/-- A path or query parameter as FastAPI's dependency metadata presents it
(`param.alias`, `param.type_`, `param.required`, `param.default`). -/
structure HostParam where
  halias : String
  htype : PyAnn
  hrequired : Bool
  hdefault : PyVal
deriving DecidableEq, Repr

/-- The `Parameter(...)` conversion applied to host metadata (route.py
lines 257-267 and 268-278): keep the default unless it is
`PydanticUndefined`, which becomes `PARAMETER_UNDEFINED`. -/
def to_parameter (hp : HostParam) : Parameter :=
  ⟨hp.halias, hp.htype, hp.hrequired,
   if hp.hdefault ≠ PyVal.pydanticUndefined then hp.hdefault else PARAMETER_UNDEFINED⟩

/-- One entry of the host route table as `Route.extract` reads it:
whether it is a user-defined `APIRoute`, its name, description, path,
method set, declared path/query parameters, optional body field type and
optional response model. -/
structure HostRoute where
  isAPIRoute : Bool
  name : String
  description : String
  path : String
  methods : List String
  path_params : List HostParam
  query_params : List HostParam
  body_type : Option PyAnn
  response_model : Option PyAnn
deriving DecidableEq, Repr

/-- The exclusion test of route.py line 250: Python's
`paths_to_exclude and route.path in paths_to_exclude`, where both `None`
and the empty list are falsy. -/
def path_excluded (paths_to_exclude : Option (List String)) (path : String) : Bool :=
  match paths_to_exclude with
  | none => false
  | some l => !l.isEmpty && l.contains path

/-- The enumerated loop body of `Route.extract` (route.py lines 246-296),
carrying the running `enumerate` index.  A non-`APIRoute` entry and an
excluded path are skipped (the index still advances); otherwise
`get_method` is consulted and its `ValueError` aborts the whole
extraction. -/
def extract_aux (paths_to_exclude : Option (List String)) :
    Nat → List HostRoute → Except PyErr (List Route)
  | _, [] => .ok []
  | i, hr :: rest =>
    if !hr.isAPIRoute then extract_aux paths_to_exclude (i + 1) rest
    else if path_excluded paths_to_exclude hr.path then extract_aux paths_to_exclude (i + 1) rest
    else do
      let method ← get_method hr.methods
      let routes ← extract_aux paths_to_exclude (i + 1) rest
      .ok (⟨i, hr.name, method, hr.path, hr.description, hr.body_type,
            hr.path_params.map to_parameter, hr.query_params.map to_parameter,
            hr.response_model⟩ :: routes)

/-- `Route.extract` (route.py lines 244-296). -/
def extract (host_routes : List HostRoute) (paths_to_exclude : Option (List String)) :
    Except PyErr (List Route) :=
  extract_aux paths_to_exclude 0 host_routes

/-! ### client.py -/

/-- `Model` (client.py lines 15-19): resolved name, emitted class source,
resolved parent name. -/
structure Model where
  name : String
  code : String
  parent_name : Option String := none
deriving DecidableEq, Repr

/-- `FastRoutes.strip_decorators_from_source` (client.py lines 141-149):
keep the source lines strictly before the first line whose left-stripped
form starts with `@` or `def `, re-joined with newlines. -/
def strip_decorators_from_source (src : String) : String :=
  pyJoin "\n" ((pySplitlines src).takeWhile
    (fun l => !(pyStartsWith (pyLstrip l) "@" || pyStartsWith (pyLstrip l) "def ")))

/-- The `Model` code construction of client.py lines 83-85 and 123-125:
the stripped source with `class <original>` rewritten to
`class <resolved>`. -/
def build_model_code (src pyName resolved : String) : String :=
  pyReplace (strip_decorators_from_source src) ("class " ++ pyName) ("class " ++ resolved)

/-- `get_args` of the outer `return_type` object as the buggy line
client.py 51 reads it (a type subscript's argument tuple; empty for
anything that is not a generic alias). -/
def getArgsObj : PyObj → List PyAnn
  | .ann (.listOf e) => [e]
  | .ann (.dictOf k v) => [k, v]
  | .ann (.unionOf a b) => [a, b]
  | _ => []

/-- `get_models_from_fields` (client.py lines 40-58), fueled.  For a
model-typed field, collect it and recurse.  For a list-typed field the
source inspects `get_args(return_type)` — the enclosing loop variable of
`get_models`, not the field's own annotation — and indexes `[0]`, an
`IndexError` when the outer return type has no subscript arguments.  A
dict-typed field has no branch at all.  The `print` at line 57 does not
affect the result. -/
def get_models_from_fields (env : List ModelInfo) (return_type : PyObj) :
    Nat → Nat → List Nat → Except PyErr (List Nat)
  | 0, _, _ => .error .fuelExhausted
  | f + 1, mid, models => do
    let info ← findModelE env mid
    info.fields.foldlM (fun ms fld =>
      match fld.ftype with
      | .cls m2 => get_models_from_fields env return_type f m2 (ms ++ [m2])
      | .listOf _ =>
        match (getArgsObj return_type).head? with
        | none => .error .indexError
        | some (.cls m2) => get_models_from_fields env return_type f m2 (ms ++ [m2])
        | some _ => .ok ms
      | _ => .ok ms) models

/-- The mutable locals of the discovery loop of `get_models` (client.py
lines 60-64): `already_written`, `mapping` (insertion-ordered dict),
`relationships` (insertion-ordered defaultdict) and `all_models`. -/
structure GmState where
  already_written : List String
  mapping : List (String × String)
  relationships : List (String × List Model)
  all_models : List (String × Model × Nat)
deriving DecidableEq, Repr

/-- Insertion-ordered dict write `d[k] = v`: overwrite in place or append. -/
def assocSet (d : List (String × String)) (k v : String) : List (String × String) :=
  if d.any (fun kv => kv.1 == k) then
    d.map (fun kv => if kv.1 == k then (k, v) else kv)
  else
    d ++ [(k, v)]

/-- `defaultdict(list)` read `d.get(k, [])`. -/
def assocGet (d : List (String × List Model)) (k : String) : List Model :=
  match d.find? (fun kv => kv.1 == k) with
  | some kv => kv.2
  | none => []

/-- `defaultdict(list)` write `d[k] += [m]`. -/
def assocAppend (d : List (String × List Model)) (k : String) (m : Model) :
    List (String × List Model) :=
  if d.any (fun kv => kv.1 == k) then
    d.map (fun kv => if kv.1 == k then (kv.1, kv.2 ++ [m]) else kv)
  else
    d ++ [(k, [m])]

/-- The body of the inner `for rtm in ...` loop of `get_models` (client.py
lines 76-91): resolve the name, de-duplicate against `already_written`,
record the original→resolved rename, build the `Model` record and extend
the parent→children adjacency. -/
def add_model (env : List ModelInfo) (st : GmState) (rtm : Nat) : Except PyErr GmState := do
  let info ← findModelE env rtm
  let model_name := get_model_name info.module info.pyName
  if st.already_written.contains model_name then
    .ok st
  else do
    let parent_name ← base_resolved_name env info
    let mdl : Model := ⟨model_name, build_model_code info.source info.pyName model_name, some parent_name⟩
    .ok ⟨st.already_written ++ [model_name],
         assocSet st.mapping info.pyName model_name,
         assocAppend st.relationships parent_name mdl,
         st.all_models ++ [(model_name, mdl, rtm)]⟩

/-- The top-level destructuring of one `return_type` (client.py lines
68-73): a `list[...]` or `dict[...]` subscript yields its argument tuple,
anything else passes through whole. -/
def rts_of : PyObj → List PyObj
  | .ann (.listOf e) => [.ann e]
  | .ann (.dictOf k v) => [.ann k, .ann v]
  | rt => [rt]

/-- Process one `return_type` of one route (client.py lines 67-91):
destructure, and for each piece that is a model class run
`get_models_from_fields` (with the outer `return_type` in scope) followed
by the class itself through `add_model`. -/
def processRT (env : List ModelInfo) (fuel : Nat) (st : GmState) (return_type : PyObj) :
    Except PyErr GmState :=
  (rts_of return_type).foldlM (fun st rt =>
    match rt with
    | .ann (.cls mid) => do
        let fieldModels ← get_models_from_fields env return_type fuel mid []
        (fieldModels ++ [mid]).foldlM (add_model env) st
    | _ => .ok st) st

/-- The whole discovery loop of `get_models` (client.py lines 60-91),
over every route's `return_types`. -/
def discover (env : List ModelInfo) (fuel : Nat) (routes : List Route) :
    Except PyErr GmState :=
  routes.foldlM (fun st r => (return_types r).foldlM (processRT env fuel) st)
    ⟨[baseModelResolvedName], [], [], []⟩

/-- The depth-first preorder walk of `dfs` (client.py lines 96-105),
fueled: emit each child, then its descendants, then the remaining
siblings.  (The Python recursion has no cycle protection; enough fuel
reproduces it exactly on acyclic name graphs.) -/
def dfs_walk (rel : List (String × List Model)) : Nat → List Model → List Model
  | 0, _ => []
  | _ + 1, [] => []
  | f + 1, child :: rest =>
    child :: (dfs_walk rel f (assocGet rel child.name) ++ dfs_walk rel f rest)

/-- `dfs(parent_name)` as called at client.py line 115. -/
def dfs (rel : List (String × List Model)) (fuel : Nat) (parent_name : String) : List Model :=
  dfs_walk rel fuel (assocGet rel parent_name)

/-- `extract_parents` (client.py lines 107-113): walk `__base__` links up
to (excluding) `BaseModel`, accumulating ancestors furthest-first. -/
def extract_parents (env : List ModelInfo) :
    Nat → Nat → List Nat → Except PyErr (List Nat)
  | 0, _, _ => .error .fuelExhausted
  | f + 1, mid, acc => do
    let info ← findModelE env mid
    match info.baseId with
    | none => .ok acc
    | some p => extract_parents env f p (p :: acc)

/-- The splice loop of `get_models` (client.py lines 117-129): for every
discovered model whose resolved name the walk did not emit, prepend one
`Model` per ancestor — each built from the ancestor's source but renamed
to the missing model's own resolved name, exactly as the comprehension at
lines 120-129 does.  `correct_order_names` is not updated inside the
loop. -/
def splice_missing (env : List ModelInfo) (fuel : Nat)
    (all_models : List (String × Model × Nat)) (correct_order_names : List String)
    (correct_order : List Model) : Except PyErr (List Model) :=
  all_models.foldlM (fun ord t =>
    if correct_order_names.contains t.1 then .ok ord
    else do
      let to_add ← extract_parents env fuel t.2.2 []
      let infos ← to_add.mapM (findModelE env)
      .ok ((infos.map (fun pInfo =>
        (⟨t.1, build_model_code pInfo.source pInfo.pyName t.1,
          some (get_model_name pInfo.module pInfo.pyName)⟩ : Model))) ++ ord)) correct_order

/-- The final rename pass of `get_models` (client.py lines 135-138): for
each original→resolved pair, in insertion order, rewrite `(old)` to
`(new)` and `: old` to `: new`.  No other anchor is rewritten. -/
def applyMapping (mapping : List (String × String)) (code : String) : String :=
  mapping.foldl (fun c kv =>
    pyReplace (pyReplace c ("(" ++ kv.1 ++ ")") ("(" ++ kv.2 ++ ")"))
      (": " ++ kv.1) (": " ++ kv.2)) code

/-- The fully ordered `correct_order` list of `get_models` after the walk
and the splice (client.py lines 93-129). -/
def ordered_models (env : List ModelInfo) (routes : List Route) (fuel : Nat) :
    Except PyErr (List Model) := do
  let st ← discover env fuel routes
  let correct_order := dfs st.relationships fuel "PydanticMainBaseModel"
  let correct_order_names := correct_order.map Model.name
  splice_missing env fuel st.all_models correct_order_names correct_order

/-- `FastRoutes.get_models` (client.py lines 39-139): concatenate the
ordered model codes, apply the rename pass, and close with three
newlines. -/
def get_models (env : List ModelInfo) (routes : List Route) (fuel : Nat) :
    Except PyErr String := do
  let st ← discover env fuel routes
  let correct_order ← ordered_models env routes fuel
  let models_code := correct_order.foldl (fun acc m => acc ++ m.code ++ "\n\n") ""
  .ok (applyMapping st.mapping models_code ++ "\n\n\n")

/-- `FastRoutes.get_imports` (client.py lines 28-37). -/
def get_imports : String :=
  "from models import *\n"
  ++ "from pydantic import BaseModel, StringConstraints, Field, EmailStr\n"
  ++ "from typing import Annotated, Literal, Optional\n"
  ++ "import httpx\n"
  ++ "import typing\n"
  ++ "from datetime import datetime\n\n\n"

/-- `FastRoutes.get_client_class` (client.py lines 157-172). -/
def get_client_class (name : String) : String :=
  "class " ++ name ++ ":\n"
  ++ "    def __init__(self, base_url: str):\n"
  ++ "       self._client = httpx.AsyncClient(base_url=base_url)\n\n"
  ++ "    async def __aenter__(self):\n"
  ++ "       return self\n\n"
  ++ "    async def __aexit__(self, exc_type, exc, tb):\n"
  ++ "       await self._client.aclose()\n\n\n"
  ++ "    def set_access_token(self, access_token: str | None):\n"
  ++ "        if access_token:\n"
  ++ "            self._client.headers.update(\x7b\"Authorization\": f\"Bearer \x7baccess_token\x7d\"\x7d)\n"
  ++ "        else:\n"
  ++ "            self._client.headers.pop(\"Authorization\", None)\n\n\n"

/-- `FastRoutes.get_handlers` (client.py lines 151-155). -/
def get_handlers (env : List ModelInfo) (routes : List Route) : Except PyErr String :=
  routes.foldlM (fun acc r => do
    let h ← handler env r
    .ok (acc ++ h ++ "\n\n")) ""

/-- `FastRoutes.export_code` (client.py lines 174-179): imports, model
definitions, client wrapper class, then the handlers indented one level. -/
def export_code (env : List ModelInfo) (routes : List Route) (name : String) (fuel : Nat) :
    Except PyErr String := do
  let imports := get_imports
  let models ← get_models env routes fuel
  let client_class := get_client_class name
  let handlers ← get_handlers env routes
  .ok (imports ++ models ++ client_class ++ pyIndent "    " handlers)

/-! ### Concrete scenarios

Small application environments, written as the introspection data the
engine would read off a running app with the corresponding pydantic
models.  All use module `app.models`, whose resolved-name prefix is
`AppModels`. -/

/-- Source of `class P(BaseModel)` with one `int` field. -/
def sourceP : String := "class P(BaseModel):\n    x: int\n"

/-- Source of `class C(P)` with one `int` field. -/
def sourceC : String := "class C(P):\n    y: int\n"

/-- Two models `C <: P <: BaseModel`; only `C` is referenced by a route,
so the walk from the base marker never reaches `C` and the splice loop of
client.py lines 117-129 fires for it. -/
def envSplice : List ModelInfo :=
  [⟨1, "P", "app.models", none, [⟨"x", .scalar "int", true, .pydanticUndefined⟩], sourceP⟩,
   ⟨2, "C", "app.models", some 1, [⟨"y", .scalar "int", true, .pydanticUndefined⟩], sourceC⟩]

/-- One route returning the bare model `C`. -/
def routesSplice : List Route :=
  [⟨0, "get_c", "GET", "/c", "", none, [], [], some (.cls 2)⟩]

/-- `Order` with a list-element model field (`items: list[ItemA]`) and a
mapping-value model field (`counts: dict[str, ItemB]`). -/
def envFields : List ModelInfo :=
  [⟨1, "ItemA", "app.models", none, [⟨"id", .scalar "int", true, .pydanticUndefined⟩],
    "class ItemA(BaseModel):\n    id: int\n"⟩,
   ⟨2, "ItemB", "app.models", none, [⟨"id", .scalar "int", true, .pydanticUndefined⟩],
    "class ItemB(BaseModel):\n    id: int\n"⟩,
   ⟨3, "Order", "app.models", none,
    [⟨"items", .listOf (.cls 1), true, .pydanticUndefined⟩,
     ⟨"counts", .dictOf (.scalar "str") (.cls 2), true, .pydanticUndefined⟩],
    "class Order(BaseModel):\n    items: list[ItemA]\n    counts: dict[str, ItemB]\n"⟩]

/-- One route returning `dict[str, Order]`. -/
def routesFields : List Route :=
  [⟨0, "get_orders", "GET", "/orders", "", none, [], [], some (.dictOf (.scalar "str") (.cls 3))⟩]

/-- `Order2` with a list-element model field, returned as a bare model
(so `get_args` of the outer return type is empty). -/
def envFieldsCrash : List ModelInfo :=
  [⟨1, "Order2", "app.models", none, [⟨"items", .listOf (.cls 2), true, .pydanticUndefined⟩],
    "class Order2(BaseModel):\n    items: list[Item]\n"⟩,
   ⟨2, "Item", "app.models", none, [⟨"id", .scalar "int", true, .pydanticUndefined⟩],
    "class Item(BaseModel):\n    id: int\n"⟩]

/-- One route returning the bare model `Order2`. -/
def routesFieldsCrash : List Route :=
  [⟨0, "get_order", "GET", "/order", "", none, [], [], some (.cls 1)⟩]

/-- `Sub(Item)` whose body references `Item` after `(`, after `: ` and
inside `[...]`. -/
def envRename : List ModelInfo :=
  [⟨1, "Item", "app.models", none, [⟨"id", .scalar "int", true, .pydanticUndefined⟩],
    "class Item(BaseModel):\n    id: int\n"⟩,
   ⟨2, "Sub", "app.models", some 1,
    [⟨"parent", .cls 1, true, .pydanticUndefined⟩,
     ⟨"items", .listOf (.cls 1), true, .pydanticUndefined⟩],
    "class Sub(Item):\n    parent: Item\n    items: list[Item]\n"⟩]

/-- One route returning `dict[str, Sub]`. -/
def routesRename : List Route :=
  [⟨0, "get_subs", "GET", "/subs", "", none, [], [], some (.dictOf (.scalar "str") (.cls 2))⟩]

/-- The model-definitions text `get_models` produces for `envRename`. -/
def renameOutput : String :=
  "class AppModelsItem(BaseModel):\n    id: int\n\n"
  ++ "class AppModelsSub(AppModelsItem):\n    parent: AppModelsItem\n    items: list[Item]\n\n\n\n\n"

/-- `GET /counts` returning `dict[str, int]`. -/
def routeCounts : Route :=
  ⟨0, "get_counts", "GET", "/counts", "", none, [], [],
   some (.dictOf (.scalar "str") (.scalar "int"))⟩

/-- The method text `Route.handler` emits for `routeCounts`. -/
def countsHandler : String :=
  "async def get_counts(self, ) -> dict[str, int]:\n"
  ++ "    \"\"\"\"\"\"\n"
  ++ "    url = '/counts'\n"
  ++ "    params = None\n"
  ++ "    payload = None\n"
  ++ "    api_response = await self._client.request(\"GET\", url, json=payload, params=params)\n"
  ++ "    api_response.raise_for_status()\n"
  ++ "    response_body = api_response.json()\n"
  ++ "    return \x7bkey: int(value) for key, value in response_body.items()\x7d"

/-- One model `M`, referenced by a route only under `M | None`. -/
def envUnion : List ModelInfo :=
  [⟨1, "M", "app.models", none, [⟨"id", .scalar "int", true, .pydanticUndefined⟩],
    "class M(BaseModel):\n    id: int\n"⟩]

/-- One route whose response is the union `M | None`. -/
def routesUnion : List Route :=
  [⟨0, "get_m", "GET", "/m", "", none, [], [], some (.unionOf (.cls 1) .noneA)⟩]

/-- A model source containing a method definition after the fields. -/
def sourceThing : String :=
  "class Thing(BaseModel):\n    a: int\n\n    def twice(self):\n        return self.a * 2\n"

/-! ### Claims -/

/-- Claim C1, evaluated at the failing input `envSplice`/`routesSplice`
(`C <: P <: BaseModel`, only `C` route-reachable).  The claim says the
ancestor chain is spliced in ahead of the model and the model itself is
still emitted; the code instead emits exactly one definition, carrying
`C`'s resolved name but `P`'s class body (`x: int`), so `C`'s own
definition (`y: int`) is never emitted and no definition named after `P`
appears. -/
theorem c1_splice_drops_model_eval :
    ordered_models envSplice routesSplice 50 =
      .ok [⟨"AppModelsC", "class AppModelsC(BaseModel):\n    x: int", some "AppModelsP"⟩] ∧
    get_models envSplice routesSplice 50 =
      .ok "class AppModelsC(BaseModel):\n    x: int\n\n\n\n\n" ∧
    pyContains "class AppModelsC(BaseModel):\n    x: int\n\n\n\n\n" "y: int" = false ∧
    pyContains "class AppModelsC(BaseModel):\n    x: int\n\n\n\n\n" "AppModelsP" = false :=
  ⟨rfl, rfl, by decide, by decide⟩

/-- Claim C2, evaluated at the failing inputs.  `Order` has a
list-element model field `items: list[ItemA]` and a mapping-value model
field `counts: dict[str, ItemB]`; with response `dict[str, Order]` the
discovery finds only `Order` — neither `ItemA` nor `ItemB` is discovered
or emitted, because the list branch of `get_models_from_fields` reads
`get_args(return_type)` (the outer loop variable) instead of the field's
annotation and a dict field has no branch.  With the bare-model response
`Order2`, the same read raises `IndexError` instead of including the
element model. -/
theorem c2_field_closure_eval :
    (discover envFields 50 routesFields).map (fun st => st.all_models.map (fun t => t.1)) =
      .ok ["AppModelsOrder"] ∧
    get_models envFields routesFields 50 =
      .ok "class AppModelsOrder(BaseModel):\n    items: list[ItemA]\n    counts: dict[str, ItemB]\n\n\n\n\n" ∧
    pyContains
      "class AppModelsOrder(BaseModel):\n    items: list[ItemA]\n    counts: dict[str, ItemB]\n\n\n\n\n"
      "class AppModelsItemA" = false ∧
    pyContains
      "class AppModelsOrder(BaseModel):\n    items: list[ItemA]\n    counts: dict[str, ItemB]\n\n\n\n\n"
      "class AppModelsItemB" = false ∧
    get_models envFieldsCrash routesFieldsCrash 50 = .error .indexError :=
  ⟨rfl, rfl, by decide, by decide, rfl⟩

/-- Claim C3 is false at `envRename`/`routesRename`: the body of the
emitted `Sub` still reads `items: list[Item]` — the occurrence of the
original name inside square brackets is not rewritten to the resolved
name, because the rename pass of client.py lines 135-138 substitutes only
at the `(Name)` and `: Name` anchors. -/
theorem c3_bracket_not_rewritten :
    get_models envRename routesRename 50 = .ok renameOutput ∧
    pyContains renameOutput "list[Item]" = true ∧
    pyContains renameOutput "list[AppModelsItem]" = false :=
  ⟨rfl, by decide, by decide⟩

/-- Claim C3 as amended: the rename pass rewrites occurrences of a
renamed model's original name at the `(Name)` and `: Name` anchors only;
occurrences inside square brackets are left as the original name.  At the
same input, `(Item)` became `(AppModelsItem)`, `: Item` became
`: AppModelsItem` (no anchored occurrence of the original name survives),
while `[Item]` is untouched. -/
theorem c3_rename_two_anchors :
    get_models envRename routesRename 50 = .ok renameOutput ∧
    pyContains renameOutput "(AppModelsItem)" = true ∧
    pyContains renameOutput "parent: AppModelsItem" = true ∧
    pyContains renameOutput "(Item)" = false ∧
    pyContains renameOutput ": Item" = false ∧
    pyContains renameOutput "[Item]" = true :=
  ⟨rfl, by decide, by decide, by decide, by decide, by decide⟩

/-- The first `find?` hit splits its list: the hit satisfies the
predicate and everything before it fails it. -/
theorem find?_first_split {α : Type} (p : α → Bool) :
    ∀ (l : List α) (a : α), l.find? p = some a →
      p a = true ∧ ∃ l1 l2, l = l1 ++ a :: l2 ∧ ∀ x ∈ l1, p x = false := by
  intro l
  induction l with
  | nil => intro a h; simp [List.find?] at h
  | cons b t ih =>
    intro a h
    cases hpb : p b with
    | true =>
      rw [List.find?_cons_of_pos _ hpb] at h
      obtain rfl : b = a := by injection h
      exact ⟨hpb, [], t, rfl, by intro x hx; cases hx⟩
    | false =>
      rw [List.find?_cons_of_neg _ (by simp [hpb])] at h
      obtain ⟨hpa, l1, l2, heq, hl1⟩ := ih a h
      refine ⟨hpa, b :: l1, l2, by simp [heq], ?_⟩
      intro x hx
      rcases List.mem_cons.mp hx with rfl | hx'
      · exact hpb
      · exact hl1 x hx'

/-- An extraction error on the tail survives prepending one more host
entry, whatever that entry does. -/
theorem extract_aux_cons_error (pte : Option (List String)) (h : HostRoute)
    (t : List HostRoute) (i : Nat)
    (htail : ∃ e, extract_aux pte (i + 1) t = .error e) :
    ∃ e, extract_aux pte i (h :: t) = .error e := by
  obtain ⟨e, he⟩ := htail
  unfold extract_aux
  by_cases h1 : !h.isAPIRoute
  · rw [if_pos h1]; exact ⟨e, he⟩
  · rw [if_neg h1]
    by_cases h2 : path_excluded pte h.path
    · rw [if_pos h2]; exact ⟨e, he⟩
    · rw [if_neg h2]
      cases hgm : get_method h.methods with
      | error e2 => exact ⟨e2, by simp [hgm, Bind.bind, Except.bind]⟩
      | ok m => exact ⟨e, by simp [hgm, he, Bind.bind, Except.bind]⟩

/-- A non-skipped head entry whose method set defeats `get_method` makes
the whole extraction error out. -/
theorem extract_aux_head_error (pte : Option (List String)) (h : HostRoute)
    (t : List HostRoute) (i : Nat) (hapi : h.isAPIRoute = true)
    (hexc : path_excluded pte h.path = false)
    (hgm : ∃ e2, get_method h.methods = .error e2) :
    ∃ e, extract_aux pte i (h :: t) = .error e := by
  obtain ⟨e2, he2⟩ := hgm
  refine ⟨e2, ?_⟩
  unfold extract_aux
  rw [if_neg (by simp [hapi]), if_neg (by simp [hexc])]
  simp [he2, Bind.bind, Except.bind]

/-- Any retained entry with an all-unsupported method set errors the
whole extraction loop, from any starting index. -/
theorem extract_aux_error_of_bad (pte : Option (List String)) :
    ∀ (l : List HostRoute) (i : Nat) (r : HostRoute), r ∈ l →
      r.isAPIRoute = true → path_excluded pte r.path = false →
      (∀ m ∈ method_priority, r.methods.contains m = false) →
      ∃ e, extract_aux pte i l = .error e := by
  intro l
  induction l with
  | nil => intro i r hm; cases hm
  | cons h t ih =>
    intro i r hmem hapi hexc hbad
    rcases List.mem_cons.mp hmem with rfl | hmem'
    · refine extract_aux_head_error pte r t i hapi hexc ?_
      refine ⟨.valueError "Method not found", ?_⟩
      unfold get_method
      rw [List.find?_eq_none.mpr (by intro x hx; rw [hbad x hx]; decide)]
    · exact extract_aux_cons_error pte h t i (ih (i + 1) r hmem' hapi hexc hbad)

/-- Claim C4: `get_method` selects the single highest-priority method
present in the entry's method set under
`GET > POST > DELETE > PUT > PATCH > HEAD > OPTIONS` — the result is in
the set and every strictly higher-priority method is absent; it errors
exactly when none of the seven names is present; and `Route.extract`
propagates that error instead of skipping the entry: any retained entry
(a user `APIRoute` whose path is not excluded) with an unsupported method
set makes the whole extraction return an error. -/
theorem c4_method_priority_selection :
    (∀ (methods : List String) (m : String), get_method methods = .ok m →
       methods.contains m = true ∧
       ∃ l1 l2, method_priority = l1 ++ m :: l2 ∧ ∀ x ∈ l1, methods.contains x = false) ∧
    (∀ methods : List String,
       (∃ e, get_method methods = .error e) ↔
         ∀ m ∈ method_priority, methods.contains m = false) ∧
    (∀ (host_routes : List HostRoute) (pte : Option (List String)) (r : HostRoute),
       r ∈ host_routes → r.isAPIRoute = true → path_excluded pte r.path = false →
       (∀ m ∈ method_priority, r.methods.contains m = false) →
       ∃ e, extract host_routes pte = .error e) := by
  refine ⟨?_, ?_, ?_⟩
  · intro methods m h
    unfold get_method at h
    cases hf : method_priority.find? (fun x => methods.contains x) with
    | none => rw [hf] at h; cases h
    | some m' =>
      rw [hf] at h
      obtain rfl : m' = m := by injection h
      exact find?_first_split _ _ _ hf
  · intro methods
    constructor
    · rintro ⟨e, he⟩
      unfold get_method at he
      cases hf : method_priority.find? (fun x => methods.contains x) with
      | none =>
        intro m hm
        have := List.find?_eq_none.mp hf m hm
        simpa using this
      | some m' => rw [hf] at he; cases he
    · intro hall
      refine ⟨.valueError "Method not found", ?_⟩
      unfold get_method
      rw [List.find?_eq_none.mpr (by intro x hx; rw [hall x hx]; decide)]
  · intro host_routes pte r hmem hapi hexc hbad
    exact extract_aux_error_of_bad pte host_routes 0 r hmem hapi hexc hbad

/-- A host entry supporting only `TRACE`, used to witness Claim C4. -/
def traceEntry : HostRoute := ⟨true, "r", "", "/r", ["TRACE"], [], [], none, none⟩

/-- Witness for Claim C4 at concrete inputs: with method set
`["PUT", "PATCH"]` the extractor picks `PUT` (present, with `GET`,
`POST`, `DELETE` all absent before it in the priority order), a
`TRACE`-only set makes `get_method` error, and an extraction over a
retained `TRACE`-only entry errors as a whole. -/
theorem c4_witness :
    ((["PUT", "PATCH"] : List String).contains "PUT" = true ∧
      ∃ l1 l2, method_priority = l1 ++ "PUT" :: l2 ∧
        ∀ x ∈ l1, (["PUT", "PATCH"] : List String).contains x = false) ∧
    (∃ e, get_method ["TRACE"] = .error e) ∧
    (∃ e, extract [traceEntry] none = .error e) := by
  obtain ⟨ha, hb, hc⟩ := c4_method_priority_selection
  refine ⟨ha ["PUT", "PATCH"] "PUT" rfl, (hb ["TRACE"]).mpr (by decide), ?_⟩
  exact hc [traceEntry] none traceEntry (List.mem_cons_self _ _) rfl rfl (by decide)

/-- Inserting into a key-`false` block followed by a key-`true` block
lands at the end when the new key is `true` and at the block boundary
when it is `false` — the stable position in both cases. -/
theorem insertStable_mid (key : Parameter → Bool) (x : Parameter) :
    ∀ (A B : List Parameter), (∀ y ∈ A, key y = false) → (∀ y ∈ B, key y = true) →
      insertStable key x (A ++ B) =
        if key x then A ++ (B ++ [x]) else A ++ x :: B := by
  intro A
  induction A with
  | nil =>
    intro B
    induction B with
    | nil =>
      intro _ _
      cases hkx : key x <;> simp [insertStable, hkx]
    | cons b B' ihB =>
      intro hA hBt
      have hbt : key b = true := hBt b (List.mem_cons_self _ _)
      cases hkx : key x with
      | true =>
        have ihB' := ihB hA (fun y hy => hBt y (List.mem_cons_of_mem _ hy))
        simp only [hkx, if_true, List.nil_append] at ihB'
        simp [insertStable, boolLe, hbt, hkx, ihB']
      | false =>
        simp [insertStable, boolLe, hbt, hkx]
  | cons a A' ihA =>
    intro B hA hBt
    have haf : key a = false := hA a (List.mem_cons_self _ _)
    have ihA' := ihA B (fun y hy => hA y (List.mem_cons_of_mem _ hy)) hBt
    cases hkx : key x with
    | true =>
      simp only [hkx, if_true] at ihA'
      simp [insertStable, boolLe, haf, hkx, ihA']
    | false =>
      simp only [hkx] at ihA'
      simp only [Bool.false_eq_true, if_false] at ihA'
      simp [insertStable, boolLe, haf, hkx, ihA']

/-- The stable boolean-key sort is the stable partition: key-`false`
elements in their original order, then key-`true` elements in theirs. -/
theorem pySorted_aux (key : Parameter → Bool) :
    ∀ (l p : List Parameter),
      l.foldl (fun acc x => insertStable key x acc)
        (p.filter (fun y => !(key y)) ++ p.filter key)
      = (p ++ l).filter (fun y => !(key y)) ++ (p ++ l).filter key := by
  intro l
  induction l with
  | nil => intro p; simp
  | cons x xs ih =>
    intro p
    rw [List.foldl_cons]
    have hstep : insertStable key x (p.filter (fun y => !(key y)) ++ p.filter key)
        = (p ++ [x]).filter (fun y => !(key y)) ++ (p ++ [x]).filter key := by
      rw [insertStable_mid key x _ _
        (fun y hy => by simpa using (List.mem_filter.mp hy).2)
        (fun y hy => (List.mem_filter.mp hy).2)]
      cases hx : key x <;> simp [List.filter_append, hx]
    rw [hstep, ih (p ++ [x])]
    simp

/-- `pySorted` computes the stable partition by the boolean key. -/
theorem pySorted_partition (key : Parameter → Bool) (l : List Parameter) :
    pySorted key l = l.filter (fun y => !(key y)) ++ l.filter key := by
  have h := pySorted_aux key l []
  simpa [pySorted] using h

/-- Claim C6: the emitted signature's parameter list is body parameters,
then path parameters, then query parameters, reordered by a stable sort
that puts every parameter carrying a default after every parameter
without one.  (The source sorts on `not p.required`; the hypothesis
records that a parameter carries a default exactly when it is not
required, which is how extraction builds every `Parameter`.)  The
conclusion gives the stable partition — required segments keep their
original body/path/query order on each side — and the ordering property
that no defaulted parameter precedes an undefaulted one. -/
theorem c6_signature_param_order (env : List ModelInfo) (r : Route)
    (h : ∀ p ∈ body_parameters env r ++ r.path_parameters ++ r.query_parameters,
           (p.default != PARAMETER_UNDEFINED) = !p.required) :
    handler_sorted_params env r
        = (body_parameters env r ++ r.path_parameters ++ r.query_parameters).filter
            (fun p => p.default == PARAMETER_UNDEFINED)
          ++ (body_parameters env r ++ r.path_parameters ++ r.query_parameters).filter
            (fun p => p.default != PARAMETER_UNDEFINED) ∧
    (handler_sorted_params env r).Pairwise
      (fun p q => (p.default != PARAMETER_UNDEFINED) = true →
                  (q.default != PARAMETER_UNDEFINED) = true) := by
  have hpart := pySorted_partition (fun p => !p.required)
    (body_parameters env r ++ r.path_parameters ++ r.query_parameters)
  have h1 : (body_parameters env r ++ r.path_parameters ++ r.query_parameters).filter
      (fun p => !(!p.required))
      = (body_parameters env r ++ r.path_parameters ++ r.query_parameters).filter
        (fun p => p.default == PARAMETER_UNDEFINED) := by
    refine List.filter_congr ?_
    intro x hx
    have hx' := h x hx
    cases hdef : (x.default == PARAMETER_UNDEFINED) <;> cases hreq : x.required <;>
      simp_all [bne]
  have h2 : (body_parameters env r ++ r.path_parameters ++ r.query_parameters).filter
      (fun p => !p.required)
      = (body_parameters env r ++ r.path_parameters ++ r.query_parameters).filter
        (fun p => p.default != PARAMETER_UNDEFINED) := by
    refine List.filter_congr ?_
    intro x hx
    exact (h x hx).symm
  have hmain : handler_sorted_params env r
      = (body_parameters env r ++ r.path_parameters ++ r.query_parameters).filter
          (fun p => p.default == PARAMETER_UNDEFINED)
        ++ (body_parameters env r ++ r.path_parameters ++ r.query_parameters).filter
          (fun p => p.default != PARAMETER_UNDEFINED) := by
    rw [handler_sorted_params, hpart, h1, h2]
  refine ⟨hmain, ?_⟩
  rw [hmain]
  rw [List.pairwise_append]
  refine ⟨?_, ?_, ?_⟩
  · refine List.pairwise_of_forall_mem_list ?_
    intro a ha b _
    have hak : (a.default == PARAMETER_UNDEFINED) = true := (List.mem_filter.mp ha).2
    intro hcontra
    rw [bne] at hcontra
    rw [hak] at hcontra
    cases hcontra
  · refine List.pairwise_of_forall_mem_list ?_
    intro a _ b hb
    exact fun _ => (List.mem_filter.mp hb).2
  · intro a _ b hb
    exact fun _ => (List.mem_filter.mp hb).2

/-- Required path parameter (no default) used to witness Claim C6. -/
def wPa : Parameter := ⟨"a", .scalar "int", true, PARAMETER_UNDEFINED⟩

/-- Defaulted path parameter used to witness Claim C6. -/
def wPb : Parameter := ⟨"b", .scalar "int", false, .vint 5⟩

/-- Required query parameter (no default) used to witness Claim C6. -/
def wPc : Parameter := ⟨"c", .scalar "str", true, PARAMETER_UNDEFINED⟩

/-- Route with parameters `a` (path, required), `b` (path, defaulted)
and `c` (query, required), used to witness Claim C6. -/
def wRoute : Route := ⟨0, "w", "GET", "/w/\x7ba\x7d", "", none, [wPa, wPb], [wPc], none⟩

/-- Witness for Claim C6: on `wRoute` the sorted signature order is
`a`, `c`, `b` — the defaulted `b` moves after the required `c` of a
later group, and `a`/`c` keep their relative order. -/
theorem c6_witness : handler_sorted_params [] wRoute = [wPa, wPc, wPb] := by
  have h := c6_signature_param_order [] wRoute (by decide)
  exact h.1.trans (by decide)

/-- Claim C7: `Parameter` equality is agreement on all four of
`(alias, type, required, default)`, while the hash key is computed from
`(alias, type, required)` only; two parameters equal on the triple but
with different defaults are unequal yet hash-equal. -/
theorem c7_parameter_eq_hash (p q : Parameter) :
    (parameterEq p q = true ↔
      p.«alias» = q.«alias» ∧ p.type = q.type ∧ p.required = q.required ∧
        p.default = q.default) ∧
    (p.«alias» = q.«alias» → p.type = q.type → p.required = q.required →
      parameterHashKey p = parameterHashKey q) ∧
    (p.«alias» = q.«alias» → p.type = q.type → p.required = q.required →
      p.default ≠ q.default →
      parameterEq p q = false ∧ parameterHashKey p = parameterHashKey q) := by
  refine ⟨by simp [parameterEq], ?_, ?_⟩
  · intro h1 h2 h3
    simp [parameterHashKey, h1, h2, h3]
  · intro h1 h2 h3 h4
    constructor
    · simp only [parameterEq, decide_eq_false_iff_not]
      rintro ⟨-, -, -, hd⟩
      exact h4 hd
    · simp [parameterHashKey, h1, h2, h3]

/-- Witness for Claim C7: two concrete query parameters `page: int`
differing only in their defaults are unequal but share the hash key. -/
theorem c7_witness :
    parameterEq ⟨"page", .scalar "int", false, .vint 1⟩ ⟨"page", .scalar "int", false, .vint 2⟩
      = false ∧
    parameterHashKey ⟨"page", .scalar "int", false, .vint 1⟩
      = parameterHashKey ⟨"page", .scalar "int", false, .vint 2⟩ := by
  exact (c7_parameter_eq_hash _ _).2.2 rfl rfl rfl (by decide)

/-- Claim C5 is false at `routeCounts` (`GET /counts` returning
`dict[str, int]`): the emitted parse line wraps every decoded value in
the bare value type's constructor, `int(value)` — it does not pass the
values through bare as `\x7bk: v for k,v in response_body.items()\x7d`. -/
theorem c5_dict_int_wraps_values :
    handler [] routeCounts = .ok countsHandler ∧
    pyContains countsHandler
      "return \x7bkey: int(value) for key, value in response_body.items()\x7d" = true ∧
    pyContains countsHandler "\x7bk: v for k,v in response_body.items()\x7d" = false ∧
    pyContains countsHandler "int(value)" = true :=
  ⟨rfl, by decide, by decide, by decide⟩

/-- Claim C5 as amended: for the `dict[str, int]` response the return
annotation is the dict shape string `dict[str, int]`, and the parse line
reconstructs the mapping key-preservingly without keyword-expansion
(the asterisk local is empty) but wraps each decoded value in the bare
value type's constructor:
`return \x7bkey: int(value) for key, value in response_body.items()\x7d`. -/
theorem c5_dict_int_amended :
    response_signature [] routeCounts.response = .ok "dict[str, int]" ∧
    response_model_of "dict[str, int]" = .ok "int" ∧
    asterisk_of "dict[str, int]" = "" ∧
    parse_body_of routeCounts.response "dict[str, int]" "int" "" =
      "    return \x7bkey: int(value) for key, value in response_body.items()\x7d" ∧
    handler [] routeCounts = .ok countsHandler ∧
    pyContains countsHandler "-> dict[str, int]:" = true ∧
    pyContains countsHandler "**" = false :=
  ⟨rfl, rfl, by decide, by decide, rfl, by decide, by decide⟩

/-- Claim C8 is false at `sourceThing`: the `Model.code` construction is
not the verbatim class source with only the class name rewritten — the
blank-line-separated method `def twice` and everything after it are
dropped by `strip_decorators_from_source` before the rename. -/
theorem c8_code_drops_method_lines :
    build_model_code sourceThing "Thing" "AppModelsThing" =
      "class AppModelsThing(BaseModel):\n    a: int\n" ∧
    pyReplace sourceThing "class Thing" "class AppModelsThing" =
      "class AppModelsThing(BaseModel):\n    a: int\n\n    def twice(self):\n        return self.a * 2\n" ∧
    build_model_code sourceThing "Thing" "AppModelsThing" ≠
      pyReplace sourceThing "class Thing" "class AppModelsThing" :=
  ⟨by decide, by decide, by decide⟩

/-- Claim C8 as amended: `Model.code` is the newline-join of the class
source's lines strictly before the first line whose left-stripped form
starts with `@` or `def `, with `class <original>` rewritten to
`class <resolved>`; the kept lines are otherwise unchanged (a source with
no such line keeps all its lines, minus the final newline lost by the
line join). -/
theorem c8_code_truncation_amended :
    (pySplitlines sourceThing).takeWhile
        (fun l => !(pyStartsWith (pyLstrip l) "@" || pyStartsWith (pyLstrip l) "def ")) =
      ["class Thing(BaseModel):", "    a: int", ""] ∧
    build_model_code sourceThing "Thing" "AppModelsThing" =
      "class AppModelsThing(BaseModel):\n    a: int\n" ∧
    build_model_code sourceP "P" "AppModelsP" = "class AppModelsP(BaseModel):\n    x: int" :=
  ⟨by decide, by decide, by decide⟩

/-- Claim C9: the embedded synthesis pipeline takes the whole route table
and model metadata as explicit arguments and performs no input/output or
other effects, so running the full code export twice against unchanged
inputs is the same function application and yields byte-identical output;
a full concrete export is pinned to its exact byte string. -/
theorem c9_export_deterministic :
    (∀ (env : List ModelInfo) (routes : List Route) (name : String) (fuel : Nat),
      export_code env routes name fuel = export_code env routes name fuel) ∧
    export_code envRename routesRename "Client" 50 = .ok (
      "from models import *\nfrom pydantic import BaseModel, StringConstraints, Field, EmailStr\n"
      ++ "from typing import Annotated, Literal, Optional\nimport httpx\nimport typing\n"
      ++ "from datetime import datetime\n\n\n"
      ++ "class AppModelsItem(BaseModel):\n    id: int\n\n"
      ++ "class AppModelsSub(AppModelsItem):\n    parent: AppModelsItem\n    items: list[Item]\n\n\n\n\n"
      ++ "class Client:\n"
      ++ "    def __init__(self, base_url: str):\n"
      ++ "       self._client = httpx.AsyncClient(base_url=base_url)\n\n"
      ++ "    async def __aenter__(self):\n"
      ++ "       return self\n\n"
      ++ "    async def __aexit__(self, exc_type, exc, tb):\n"
      ++ "       await self._client.aclose()\n\n\n"
      ++ "    def set_access_token(self, access_token: str | None):\n"
      ++ "        if access_token:\n"
      ++ "            self._client.headers.update(\x7b\"Authorization\": f\"Bearer \x7baccess_token\x7d\"\x7d)\n"
      ++ "        else:\n"
      ++ "            self._client.headers.pop(\"Authorization\", None)\n\n\n"
      ++ "    async def get_subs(self, ) -> dict[str, AppModelsSub]:\n"
      ++ "        \"\"\"\"\"\"\n"
      ++ "        url = '/subs'\n"
      ++ "        params = None\n"
      ++ "        payload = None\n"
      ++ "        api_response = await self._client.request(\"GET\", url, json=payload, params=params)\n"
      ++ "        api_response.raise_for_status()\n"
      ++ "        response_body = api_response.json()\n"
      ++ "        return \x7bkey: AppModelsSub(**value) for key, value in response_body.items()\x7d\n\n") :=
  ⟨fun _ _ _ _ => rfl, rfl⟩

/-- Claim C10: the discovery loop destructures only a top-level `list` or
`dict` subscript (anything else passes through whole and contributes only
if it is itself a model class), so a union return type such as
`M | None` contributes nothing for any environment, fuel and running
state; concretely, the app whose only route returns `M | None` emits no
model definitions at all. -/
theorem c10_union_contributes_nothing :
    (∀ (a b : PyAnn), rts_of (.ann (.unionOf a b)) = [.ann (.unionOf a b)]) ∧
    (∀ (env : List ModelInfo) (fuel : Nat) (st : GmState) (a b : PyAnn),
      processRT env fuel st (.ann (.unionOf a b)) = .ok st) ∧
    get_models envUnion routesUnion 50 = .ok "\n\n\n" ∧
    pyContains "\n\n\n" "class" = false :=
  ⟨fun _ _ => rfl, fun _ _ _ _ _ => rfl, rfl, by decide⟩

end Fastroutes
